import Mathlib

/-!
Verification of the itinerary/budget data model and mutation handlers of the
trip-planning application (`src/src/App.jsx`).

Embedding conventions:
* JS numbers are modelled as rationals (`ℚ`).  The only numeric values the
  handlers produce come from `parseFloat(value) || 0` and integer literals,
  so `NaN` never reaches a stored field; a `parseFloat` result of `NaN` is
  modelled by `Option.none` (see `jsParseFloat`), matching the fact that
  `NaN || 0` evaluates to `0` in JS.
* Calendar dates (`YYYY-MM-DD` strings in the source) are modelled as
  integers counting days since an epoch.  The source computes dates with
  `new Date(start.getTime() + k * 86400000).toISOString().split('T')[0]`,
  which on UTC-midnight inputs is exactly integer day addition, modelled
  as `start + k`.
* JS objects with a dynamic key set (the `budget` object, whose keys can be
  extended by `handleBudgetChange`) are modelled by an insertion-ordered
  association list; fixed-shape objects are modelled as structures.
-/

namespace ItineraryApp

/-- An activity entry of one day plan (`{ id, time, description }`). -/
structure Activity where
  id : String
  time : String
  description : String
deriving DecidableEq, Repr

/-- One day of the itinerary (`{ id, day, date, activities }`).
`day` is the 1-based day number, `date` a calendar date (days since epoch). -/
structure DayPlan where
  id : String
  day : Int
  date : Int
  activities : List Activity
deriving DecidableEq, Repr

/-- The two budget fields addressed through `data-field` in the source. -/
inductive BField where
  | estimated
  | actual
deriving DecidableEq, Repr

/-- One budget category object.  A field is `none` when the underlying JS
object lacks that property (which happens when `handleBudgetChange` creates
a fresh category object from `{ ...undefined, [field]: v }`). -/
structure BudgetCat where
  estimated : Option ℚ
  actual : Option ℚ
deriving DecidableEq, Repr

/-- The `budget` object: a `currency` property plus the category entries in
insertion order. -/
structure BudgetSheet where
  currency : String
  entries : List (String × BudgetCat)
deriving DecidableEq, Repr

/-- The root trip document held in the `tripDetails` state. -/
structure TripDoc where
  title : String
  destination : String
  startDate : Int
  endDate : Int
  notes : String
  itinerary : List DayPlan
  budget : BudgetSheet
deriving DecidableEq, Repr

/-! ### A model of `parseFloat`

`parseFloat` skips leading whitespace, reads an optional sign and the longest
prefix that is a decimal literal (digits, optional fraction, optional
exponent), ignoring everything after it; it yields `NaN` when no digit can be
read.  `NaN` is modelled as `none` (the caller `parseFloat(value) || 0` turns
it into `0` either way).  The JS values `Infinity`/`-Infinity`, which have no
rational counterpart and cannot be produced from the app's number inputs, are
also mapped to `none`. -/

/-- Value of a digit string read in base 10. -/
def natOfDigits (ds : List Char) : Nat :=
  ds.foldl (fun n c => 10 * n + (c.toNat - 48)) 0

/-- Drop the whitespace `parseFloat` skips. -/
def dropJsWs (cs : List Char) : List Char :=
  cs.dropWhile (fun c => c == ' ' || c == '\t' || c == '\n' || c == '\r')

/-- Exponent digits; an empty digit run means the exponent marker is not
part of the parsed literal, so it contributes `0`. -/
def expDigits (cs : List Char) : Int :=
  let ds := cs.takeWhile Char.isDigit
  if ds.isEmpty then 0 else (natOfDigits ds : Int)

/-- A signed exponent body after `e`/`E`. -/
def parseSignedExp : List Char → Int
  | '-' :: rest => -(expDigits rest)
  | '+' :: rest => expDigits rest
  | rest => expDigits rest

/-- The optional exponent part of a decimal literal. -/
def parseExpPart : List Char → Int
  | 'e' :: rest => parseSignedExp rest
  | 'E' :: rest => parseSignedExp rest
  | _ => 0

/-- The syntactic parts of a parsed decimal literal: integer digits,
fraction digits, and the exponent value. -/
structure NumParts where
  intDs : List Char
  fracDs : List Char
  expo : Int
deriving DecidableEq, Repr

/-- Split an unsigned decimal literal prefix into its parts; `none` when no
digit occurs before or right after the decimal point. -/
def parseParts (cs : List Char) : Option NumParts :=
  let intDs := cs.takeWhile Char.isDigit
  let rest1 := cs.dropWhile Char.isDigit
  let fracDs := match rest1 with
    | '.' :: t => t.takeWhile Char.isDigit
    | _ => []
  let rest2 := match rest1 with
    | '.' :: t => t.dropWhile Char.isDigit
    | _ => rest1
  if intDs.isEmpty && fracDs.isEmpty then none
  else some { intDs := intDs, fracDs := fracDs, expo := parseExpPart rest2 }

/-- The numeric value of a parsed literal's parts. -/
def partsVal (p : NumParts) : ℚ :=
  ((natOfDigits p.intDs : ℚ) + (natOfDigits p.fracDs : ℚ) / 10 ^ p.fracDs.length)
    * 10 ^ p.expo

/-- Optional sign, then the literal's parts; the `Bool` records a leading
minus sign. -/
def parseSigned : List Char → Option (Bool × NumParts)
  | '-' :: rest => (parseParts rest).map (fun p => (true, p))
  | '+' :: rest => (parseParts rest).map (fun p => (false, p))
  | cs => (parseParts cs).map (fun p => (false, p))

/-- Model of `parseFloat` on a string: whitespace, optional sign, decimal
literal. -/
def jsParseFloat (s : String) : Option ℚ :=
  (parseSigned (dropJsWs s.data)).map
    (fun sp => if sp.1 then -(partsVal sp.2) else partsVal sp.2)

/-- Model of `parseFloat(value) || 0` (source line 744): `NaN`, `0` and `-0` all
become `0`. -/
def parseOrZero (s : String) : ℚ :=
  (jsParseFloat s).getD 0

/-! ### The default document (`defaultItinerary`, source lines 43-67)

The source fills in `new Date()` and `crypto.randomUUID()`; the current day
and the fresh identifiers are passed as parameters here. -/

/-- The `defaultItinerary` value, with `today` the current UTC date and `dayId`,
`actId` the two generated identifiers.  `endDate` is
`Date.now() + 2 * 86400000`, i.e. two days after today. -/
def defaultItinerary (today : Int) (dayId actId : String) : TripDoc where
  title := "Vigovia Trip Itinerary"
  destination := "Lisbon, Portugal"
  startDate := today
  endDate := today + 2
  notes := "Remember to pack comfortable walking shoes and charge your camera battery!"
  itinerary := [ { id := dayId, day := 1, date := today,
                   activities := [ { id := actId, time := "09:00",
                                     description := "Arrive at Airport" } ] } ]
  budget := { currency := "USD",
              entries := [ ("flights", { estimated := some 600, actual := some 0 }),
                           ("accommodation", { estimated := some 500, actual := some 0 }),
                           ("activities", { estimated := some 400, actual := some 0 }),
                           ("miscellaneous", { estimated := some 100, actual := some 0 }) ] }

/-! ### Mutation handlers (source lines 618-762) -/

/-- The scalar-field payloads `handleDetailChange` receives from the five
general inputs (`name` attribute and new value). -/
inductive FieldValue where
  | title (s : String)
  | destination (s : String)
  | notes (s : String)
  | startDate (d : Int)
  | endDate (d : Int)
deriving DecidableEq, Repr

/-- Handler `handleDetailChange` (lines 618-637): replace the named scalar field;
when the field is `startDate` and the itinerary is non-empty, recompute every
day's `date` as `newStart + (day.day - 1)` days. -/
def handleDetailChange (doc : TripDoc) : FieldValue → TripDoc
  | .title s => { doc with title := s }
  | .destination s => { doc with destination := s }
  | .notes s => { doc with notes := s }
  | .endDate d => { doc with endDate := d }
  | .startDate d =>
      if doc.itinerary.length > 0 then
        { doc with startDate := d,
                   itinerary := doc.itinerary.map
                     (fun day => { day with date := d + (day.day - 1) }) }
      else { doc with startDate := d }

/-- The two activity fields addressed by `handleActivityChange`. -/
inductive BActField where
  | time
  | description
deriving DecidableEq, Repr

/-- Update `{ ...activity, [field]: value }` for the two field names the activity
inputs use (lines 191 and 198). -/
def setActField (a : Activity) : BActField → String → Activity
  | .time, v => { a with time := v }
  | .description, v => { a with description := v }

/-- Handler `handleActivityChange` (lines 640-657): update one field of the matching
activity of the matching day; unmatched days/activities pass through. -/
def handleActivityChange (doc : TripDoc) (dayId activityId : String)
    (field : BActField) (value : String) : TripDoc :=
  { doc with itinerary := doc.itinerary.map (fun day =>
      if day.id = dayId then
        { day with activities := day.activities.map (fun activity =>
            if activity.id = activityId then setActField activity field value
            else activity) }
      else day) }

/-- Handler `addActivity` (lines 660-675): append a blank activity with a fresh id
to the matching day. -/
def addActivity (doc : TripDoc) (dayId newId : String) : TripDoc :=
  { doc with itinerary := doc.itinerary.map (fun day =>
      if day.id = dayId then
        { day with activities :=
            day.activities ++ [ { id := newId, time := "", description := "" } ] }
      else day) }

/-- Handler `removeActivity` (lines 677-692): delete the matching activity from the
matching day. -/
def removeActivity (doc : TripDoc) (dayId activityId : String) : TripDoc :=
  { doc with itinerary := doc.itinerary.map (fun day =>
      if day.id = dayId then
        { day with activities :=
            day.activities.filter (fun activity => activity.id ≠ activityId) }
      else day) }

/-- Handler `addDay` (lines 694-710): append a day numbered `count + 1`, dated
`startDate + (count + 1 - 1)` days, with one seeded activity. -/
def addDay (doc : TripDoc) (dayId actId : String) : TripDoc :=
  let newDayNumber : Int := (doc.itinerary.length : Int) + 1
  let newDate : Int := doc.startDate + (newDayNumber - 1)
  { doc with itinerary := doc.itinerary ++
      [ { id := dayId, day := newDayNumber, date := newDate,
          activities := [ { id := actId, time := "09:00",
                            description := "New Day Activity" } ] } ] }

/-- The renumbering loop of `removeDay`: the element at offset `i` (with
`n` elements already renumbered before it) gets `day := n + i + 1` and
`date := startDate + (n + i)` days. -/
def renumberFrom (start : Int) (n : Nat) : List DayPlan → List DayPlan
  | [] => []
  | d :: rest =>
      { d with day := (n : Int) + 1, date := start + (n : Int) } :: renumberFrom start (n + 1) rest

/-- Handler `removeDay` (lines 712-731): drop the matching day, then renumber the
remaining days `1..N` in order and recompute each date from `startDate`. -/
def removeDay (doc : TripDoc) (dayId : String) : TripDoc :=
  { doc with itinerary :=
      renumberFrom doc.startDate 0 (doc.itinerary.filter (fun day => day.id ≠ dayId)) }

/-- Update `{ ...cat, [field]: v }`. -/
def setCatField (c : BudgetCat) : BField → ℚ → BudgetCat
  | .estimated, v => { c with estimated := some v }
  | .actual, v => { c with actual := some v }

/-- The category object used when `prev.budget[name]` is `undefined`:
`{ ...undefined }` is the empty object. -/
def emptyCat : BudgetCat where
  estimated := none
  actual := none

/-- Update `{ ...prev.budget, [name]: { ...prev.budget[name], [field]: v } }` on
the association-list model: an existing key is updated in place, a missing
key is appended (JS object insertion-order semantics). -/
def updateEntry : List (String × BudgetCat) → String → BField → ℚ → List (String × BudgetCat)
  | [], name, field, v => [ (name, setCatField emptyCat field v) ]
  | (k, c) :: rest, name, field, v =>
      if k = name then (k, setCatField c field v) :: rest
      else (k, c) :: updateEntry rest name field v

/-- The event payload `handleBudgetChange` reads: the input's `name`, its
string `value`, and the `data-field` attribute when present (the currency
select has none; the amount inputs carry `estimated` or `actual`). -/
structure BudgetEvent where
  name : String
  value : String
  datasetField : Option BField
deriving DecidableEq, Repr

/-- Handler `handleBudgetChange` (lines 734-762): `name == 'currency'` replaces the
currency; otherwise, when `data-field` is present, write
`parseFloat(value) || 0` into `budget[name][field]`; otherwise no-op. -/
def handleBudgetChange (doc : TripDoc) (e : BudgetEvent) : TripDoc :=
  if e.name = "currency" then
    { doc with budget := { doc.budget with currency := e.value } }
  else
    match e.datasetField with
    | some field =>
        let es := updateEntry doc.budget.entries e.name field (parseOrZero e.value)
        { doc with budget := { doc.budget with entries := es } }
    | none => doc

/-- First-match association lookup, i.e. JS property access on the budget
object's category keys. -/
def lookupEntry : List (String × BudgetCat) → String → Option BudgetCat
  | [], _ => none
  | (k, c) :: rest, key => if k = key then some c else lookupEntry rest key

/-- Read one amount field of one category (`budget[key][field]`). -/
def getAmount (b : BudgetSheet) (key : String) (field : BField) : Option ℚ :=
  (lookupEntry b.entries key).bind (fun c =>
    match field with
    | .estimated => c.estimated
    | .actual => c.actual)

/-! ### Displayed totals (`BudgetPlanner`, source lines 353-363)

`Object.values(budget).reduce((sum, item) => typeof item.estimated ===
'number' ? sum + item.estimated : sum, 0)`: the `currency` string has no
`estimated` property and is skipped by the `typeof` guard, so the fold runs
over the category entries, adding each present amount. -/

/-- Displayed `totalEstimated` of the budget panel. -/
def totalEstimated (b : BudgetSheet) : ℚ :=
  b.entries.foldl (fun sum e =>
    match e.2.estimated with
    | some q => sum + q
    | none => sum) 0

/-- Displayed `totalActual` of the budget panel. -/
def totalActual (b : BudgetSheet) : ℚ :=
  b.entries.foldl (fun sum e =>
    match e.2.actual with
    | some q => sum + q
    | none => sum) 0

/-- Displayed `status = totalActual > totalEstimated ? 'Over Budget' : 'On Track'`
(source line 361). -/
def budgetStatus (b : BudgetSheet) : String :=
  if totalActual b > totalEstimated b then "Over Budget" else "On Track"

/-! ### Sequences of day mutations -/

/-- One user-initiated day mutation; `add` carries the two identifiers the
source draws from `crypto.randomUUID()`. -/
inductive DayOp where
  | add (dayId actId : String)
  | remove (dayId : String)
deriving DecidableEq, Repr

/-- Apply one day mutation. -/
def applyDayOp (doc : TripDoc) : DayOp → TripDoc
  | .add dayId actId => addDay doc dayId actId
  | .remove dayId => removeDay doc dayId

/-- Apply a finite sequence of day mutations, oldest first. -/
def applyDayOps (doc : TripDoc) : List DayOp → TripDoc
  | [] => doc
  | op :: rest => applyDayOps (applyDayOp doc op) rest

/-- List `[n + 1, n + 2, ..., n + k]` of integers. -/
def seqFrom (n : Nat) : Nat → List Int
  | 0 => []
  | k + 1 => ((n : Int) + 1) :: seqFrom (n + 1) k

/-- The day-numbering invariant: the day numbers of the itinerary are
exactly `1..N` in ascending order, `N` the number of days. -/
def DenseDoc (doc : TripDoc) : Prop :=
  doc.itinerary.map DayPlan.day = seqFrom 0 doc.itinerary.length

/-! ### Serialization (`saveItinerary` line 573 / `onSnapshot` line 594)

`saveItinerary` stores `JSON.stringify(doc)` and the listener applies
`JSON.parse` and uses the result structurally.  `JValue` is the tree of
JSON values; `TripDoc.toJson` is the tree `JSON.stringify` emits for a
document (object keys in the insertion order of the source literals;
`undefined` category fields omitted), and the `fromJson` functions make
the listener's structural reading of the parsed tree explicit. -/

/-- A JSON value tree. -/
inductive JValue where
  | jnull
  | jbool (b : Bool)
  | jnum (q : ℚ)
  | jstr (s : String)
  | jarr (elems : List JValue)
  | jobj (fields : List (String × JValue))

/-- JSON for one activity. -/
def Activity.toJson (a : Activity) : JValue :=
  .jobj [ ("id", .jstr a.id), ("time", .jstr a.time),
          ("description", .jstr a.description) ]

/-- JSON for one day plan. -/
def DayPlan.toJson (d : DayPlan) : JValue :=
  .jobj [ ("id", .jstr d.id), ("day", .jnum (d.day : ℚ)),
          ("date", .jnum (d.date : ℚ)),
          ("activities", .jarr (d.activities.map Activity.toJson)) ]

/-- JSON for one budget category; absent fields are omitted, as
`JSON.stringify` omits `undefined` properties. -/
def BudgetCat.toJson (c : BudgetCat) : JValue :=
  .jobj ((match c.estimated with
          | some q => [ ("estimated", JValue.jnum q) ]
          | none => []) ++
         (match c.actual with
          | some q => [ ("actual", JValue.jnum q) ]
          | none => []))

/-- JSON for the budget object: `currency` first, then the category
entries in insertion order. -/
def BudgetSheet.toJson (b : BudgetSheet) : JValue :=
  .jobj (("currency", .jstr b.currency) ::
    b.entries.map (fun e => (e.1, BudgetCat.toJson e.2)))

/-- JSON for the whole document, keys in the order of the source literal. -/
def TripDoc.toJson (t : TripDoc) : JValue :=
  .jobj [ ("title", .jstr t.title), ("destination", .jstr t.destination),
          ("startDate", .jnum (t.startDate : ℚ)),
          ("endDate", .jnum (t.endDate : ℚ)), ("notes", .jstr t.notes),
          ("itinerary", .jarr (t.itinerary.map DayPlan.toJson)),
          ("budget", t.budget.toJson) ]

/-- First-match field lookup in a JSON object. -/
def getField : List (String × JValue) → String → Option JValue
  | [], _ => none
  | (k, v) :: rest, key => if k = key then some v else getField rest key

/-- Read a JSON string. -/
def asStr : JValue → Option String
  | .jstr s => some s
  | _ => none

/-- Read a JSON number. -/
def asNum : JValue → Option ℚ
  | .jnum q => some q
  | _ => none

/-- Read a JSON number that is an integer. -/
def asNumInt : JValue → Option Int
  | .jnum q => if q.den = 1 then some q.num else none
  | _ => none

/-- Read a JSON array. -/
def asArr : JValue → Option (List JValue)
  | .jarr l => some l
  | _ => none

/-- Decode every element of a JSON array. -/
def decodeList {α : Type} (f : JValue → Option α) : List JValue → Option (List α)
  | [] => some []
  | j :: rest => do
      let a ← f j
      let as ← decodeList f rest
      pure (a :: as)

/-- Decode one activity. -/
def Activity.fromJson (j : JValue) : Option Activity :=
  match j with
  | .jobj fs => do
      let i ← getField fs "id" >>= asStr
      let t ← getField fs "time" >>= asStr
      let d ← getField fs "description" >>= asStr
      pure { id := i, time := t, description := d }
  | _ => none

/-- Decode one day plan. -/
def DayPlan.fromJson (j : JValue) : Option DayPlan :=
  match j with
  | .jobj fs => do
      let i ← getField fs "id" >>= asStr
      let dy ← getField fs "day" >>= asNumInt
      let dt ← getField fs "date" >>= asNumInt
      let actsJ ← getField fs "activities" >>= asArr
      let acts ← decodeList Activity.fromJson actsJ
      pure { id := i, day := dy, date := dt, activities := acts }
  | _ => none

/-- Decode an optional numeric field. -/
def decodeOptNum : Option JValue → Option (Option ℚ)
  | none => some none
  | some j => (asNum j).map some

/-- Decode one budget category (either field may be absent). -/
def BudgetCat.fromJson (j : JValue) : Option BudgetCat :=
  match j with
  | .jobj fs => do
      let e ← decodeOptNum (getField fs "estimated")
      let a ← decodeOptNum (getField fs "actual")
      pure { estimated := e, actual := a }
  | _ => none

/-- Decode the category entries of the budget object, keeping key order. -/
def decodeEntries : List (String × JValue) → Option (List (String × BudgetCat))
  | [] => some []
  | (k, j) :: rest => do
      let c ← BudgetCat.fromJson j
      let cs ← decodeEntries rest
      pure ((k, c) :: cs)

/-- Decode the budget object (`currency` first, then category entries). -/
def BudgetSheet.fromJson : JValue → Option BudgetSheet
  | .jobj (("currency", .jstr c) :: rest) =>
      (decodeEntries rest).map (fun es => { currency := c, entries := es })
  | _ => none

/-- Decode a whole document. -/
def TripDoc.fromJson (j : JValue) : Option TripDoc :=
  match j with
  | .jobj fs => do
      let t ← getField fs "title" >>= asStr
      let dst ← getField fs "destination" >>= asStr
      let sd ← getField fs "startDate" >>= asNumInt
      let ed ← getField fs "endDate" >>= asNumInt
      let n ← getField fs "notes" >>= asStr
      let itinJ ← getField fs "itinerary" >>= asArr
      let itin ← decodeList DayPlan.fromJson itinJ
      let bj ← getField fs "budget"
      let b ← BudgetSheet.fromJson bj
      pure { title := t, destination := dst, startDate := sd, endDate := ed,
             notes := n, itinerary := itin, budget := b }
  | _ => none

/-! ### The snapshot listener (`onSnapshot` callback, source lines 589-610) -/

/-- The stored `itineraryData` string, abstracted by whether `JSON.parse`
succeeds; a payload that parses is identified with the document it decodes
to. -/
inductive StoredPayload where
  | unparsable
  | parsed (doc : TripDoc)
deriving DecidableEq, Repr

/-- What one snapshot delivers: no record, a record whose `itineraryData`
is falsy (absent or empty), or a record with a stored payload. -/
inductive SnapshotRecord where
  | missing
  | emptyData
  | payload (p : StoredPayload)
deriving DecidableEq, Repr

/-- The observable effect of one run of the snapshot callback:
whether `saveItinerary(defaultItinerary)` was called, and the value passed
to `setTripDetails`, if any. -/
structure SnapshotEffect where
  savedDefault : Bool
  newLocal : Option TripDoc
deriving DecidableEq, Repr

/-- The snapshot callback (lines 589-610): a missing record or a record
with falsy `itineraryData` triggers `saveItinerary(defaultItinerary)`;
a payload that fails to parse sets local state to the default document
(without saving); a payload that parses sets local state to it. -/
def onSnapshotStep (defaultDoc : TripDoc) : SnapshotRecord → SnapshotEffect
  | .missing => { savedDefault := true, newLocal := none }
  | .emptyData => { savedDefault := true, newLocal := none }
  | .payload .unparsable => { savedDefault := false, newLocal := some defaultDoc }
  | .payload (.parsed d) => { savedDefault := false, newLocal := some d }

/-! ### Predicates used by the stated properties -/

/-- Both amounts of a category, when present, are non-negative. -/
def NonnegCat (c : BudgetCat) : Prop :=
  (∀ q ∈ c.estimated, 0 ≤ q) ∧ (∀ q ∈ c.actual, 0 ≤ q)

/-- Every category of the budget has non-negative amounts. -/
def NonnegSheet (b : BudgetSheet) : Prop :=
  ∀ p ∈ b.entries, NonnegCat p.2

/-! ## Helper lemmas -/

theorem lookupEntry_updateEntry_self (es : List (String × BudgetCat)) (name : String)
    (f : BField) (v : ℚ) :
    lookupEntry (updateEntry es name f v) name
      = some (setCatField ((lookupEntry es name).getD emptyCat) f v) := by
  induction es with
  | nil => simp [updateEntry, lookupEntry]
  | cons p rest ih =>
      obtain ⟨k, c⟩ := p
      by_cases h : k = name
      · subst h
        simp [updateEntry, lookupEntry]
      · simp [updateEntry, lookupEntry, h, ih]

theorem updateEntry_of_fresh (es : List (String × BudgetCat)) (name : String)
    (f : BField) (v : ℚ) (hk : ∀ p ∈ es, p.1 ≠ name) :
    updateEntry es name f v = es ++ [ (name, setCatField emptyCat f v) ] := by
  induction es with
  | nil => simp [updateEntry]
  | cons p rest ih =>
      obtain ⟨k, c⟩ := p
      have hne : k ≠ name := hk (k, c) (List.mem_cons_self _ _)
      simp [updateEntry, hne]
      exact ih (fun p hp => hk p (List.mem_cons_of_mem _ hp))

theorem nonnegCat_setCatField {c : BudgetCat} {f : BField} {v : ℚ}
    (hc : NonnegCat c) (hv : 0 ≤ v) : NonnegCat (setCatField c f v) := by
  cases f with
  | estimated =>
      refine ⟨?_, ?_⟩
      · intro q hq
        simp [setCatField] at hq
        subst hq
        exact hv
      · intro q hq
        simp [setCatField] at hq
        exact hc.2 q hq
  | actual =>
      refine ⟨?_, ?_⟩
      · intro q hq
        simp [setCatField] at hq
        exact hc.1 q hq
      · intro q hq
        simp [setCatField] at hq
        subst hq
        exact hv

theorem nonnegCat_emptyCat : NonnegCat emptyCat := by
  constructor <;> simp [emptyCat]

theorem updateEntry_nonneg (es : List (String × BudgetCat)) (name : String)
    (f : BField) (v : ℚ) (hes : ∀ p ∈ es, NonnegCat p.2) (hv : 0 ≤ v) :
    ∀ p ∈ updateEntry es name f v, NonnegCat p.2 := by
  induction es with
  | nil =>
      intro p hp
      simp [updateEntry] at hp
      subst hp
      exact nonnegCat_setCatField nonnegCat_emptyCat hv
  | cons q rest ih =>
      obtain ⟨k, c⟩ := q
      intro p hp
      by_cases h : k = name
      · subst h
        simp [updateEntry] at hp
        rcases hp with hp | hp
        · subst hp
          exact nonnegCat_setCatField (hes (k, c) (List.mem_cons_self _ _)) hv
        · exact hes p (List.mem_cons_of_mem _ hp)
      · simp [updateEntry, h] at hp
        rcases hp with hp | hp
        · subst hp
          exact hes (k, c) (List.mem_cons_self _ _)
        · exact ih (fun r hr => hes r (List.mem_cons_of_mem _ hr)) p hp

theorem seqFrom_snoc (k n : Nat) :
    seqFrom n (k + 1) = seqFrom n k ++ [ (n : Int) + (k : Int) + 1 ] := by
  induction k generalizing n with
  | zero => simp [seqFrom]
  | succ k ih =>
      rw [seqFrom, ih (n + 1), seqFrom]
      simp only [List.cons_append]
      push_cast
      ring_nf

theorem dense_addDay {doc : TripDoc} (h : DenseDoc doc) (dayId actId : String) :
    DenseDoc (addDay doc dayId actId) := by
  unfold DenseDoc at h ⊢
  unfold addDay
  simp only [List.map_append, List.length_append, List.map_cons, List.map_nil,
    List.length_cons, List.length_nil]
  rw [h, seqFrom_snoc]
  simp

theorem renumberFrom_length (start : Int) (l : List DayPlan) :
    ∀ n, (renumberFrom start n l).length = l.length := by
  induction l with
  | nil => intro n; simp [renumberFrom]
  | cons d rest ih => intro n; simp [renumberFrom, ih]

theorem renumberFrom_map_day (start : Int) (l : List DayPlan) :
    ∀ n, (renumberFrom start n l).map DayPlan.day = seqFrom n l.length := by
  induction l with
  | nil => intro n; simp [renumberFrom, seqFrom]
  | cons d rest ih => intro n; simp [renumberFrom, seqFrom, ih]

theorem dense_removeDay (doc : TripDoc) (dayId : String) :
    DenseDoc (removeDay doc dayId) := by
  unfold DenseDoc removeDay
  simp only
  rw [renumberFrom_length, renumberFrom_map_day]

theorem asNumInt_intCast (n : Int) : asNumInt (.jnum (n : ℚ)) = some n := by
  simp [asNumInt, Rat.den_intCast, Rat.num_intCast]

theorem decodeList_roundTrip {α : Type} (f : α → JValue) (g : JValue → Option α)
    (h : ∀ a, g (f a) = some a) (l : List α) :
    decodeList g (l.map f) = some l := by
  induction l with
  | nil => simp [decodeList]
  | cons a rest ih => simp [decodeList, h, ih]

theorem activity_roundTrip (a : Activity) : Activity.fromJson a.toJson = some a := by
  cases a
  simp [Activity.toJson, Activity.fromJson, getField, asStr]

theorem dayPlan_roundTrip (d : DayPlan) : DayPlan.fromJson d.toJson = some d := by
  cases d
  simp [DayPlan.toJson, DayPlan.fromJson, getField, asStr, asArr, asNumInt_intCast,
    decodeList_roundTrip Activity.toJson Activity.fromJson activity_roundTrip]

theorem budgetCat_roundTrip (c : BudgetCat) : BudgetCat.fromJson c.toJson = some c := by
  obtain ⟨e, a⟩ := c
  cases e <;> cases a <;>
    simp [BudgetCat.toJson, BudgetCat.fromJson, getField, decodeOptNum, asNum]

theorem decodeEntries_roundTrip (es : List (String × BudgetCat)) :
    decodeEntries (es.map (fun e => (e.1, BudgetCat.toJson e.2))) = some es := by
  induction es with
  | nil => simp [decodeEntries]
  | cons p rest ih => simp [decodeEntries, budgetCat_roundTrip, ih]

theorem budgetSheet_roundTrip (b : BudgetSheet) :
    BudgetSheet.fromJson b.toJson = some b := by
  obtain ⟨c, es⟩ := b
  simp [BudgetSheet.toJson, BudgetSheet.fromJson, decodeEntries_roundTrip]

/-! ## Claims -/

/-- C1: for every document whose day numbers are a contiguous 1-based
sequence and every finite sequence of `addDay`/`removeDay` calls, the
resulting document's day numbers are exactly `1..N` in ascending order with
no gaps or duplicates, `N` the number of remaining days. -/
theorem dense_applyDayOps (doc : TripDoc) (ops : List DayOp) (h : DenseDoc doc) :
    DenseDoc (applyDayOps doc ops) := by
  induction ops generalizing doc with
  | nil => exact h
  | cons op rest ih =>
      cases op with
      | add dayId actId => exact ih _ (dense_addDay h dayId actId)
      | remove dayId => exact ih _ (dense_removeDay doc dayId)

/-- Witness for C1: the default document is dense, and stays dense after two
`addDay` calls and a `removeDay` of the first day. -/
theorem dense_applyDayOps_witness :
    DenseDoc (defaultItinerary 0 "d1" "a1") ∧
    DenseDoc (applyDayOps (defaultItinerary 0 "d1" "a1")
      [ DayOp.add "d2" "a2", DayOp.add "d3" "a3", DayOp.remove "d1" ]) :=
  ⟨by unfold DenseDoc; decide, dense_applyDayOps _ _ (by unfold DenseDoc; decide)⟩

/-- C2 counterexample: the default document's itinerary has exactly one day
(not two), and a single `addDay` yields two days (not three). -/
theorem defaultItinerary_one_day_counterexample :
    (defaultItinerary 0 "d1" "a1").itinerary.length = 1 ∧
    (addDay (defaultItinerary 0 "d1" "a1") "d2" "a2").itinerary.length = 2 :=
  ⟨rfl, rfl⟩

/-- C2 (amended): the default document is a single-day itinerary starting
today with `endDate` two days later, one pre-filled activity on day 1, and
budget estimates flights 600 / accommodation 500 / activities 400 /
miscellaneous 100 (all actuals 0, currency USD); applying `addDay` once
appends day 2, dated `startDate + 1` day, containing exactly one seeded
activity "New Day Activity" at 09:00. -/
theorem defaultItinerary_addDay_scenario (today : Int) (d1 a1 d2 a2 : String) :
    (defaultItinerary today d1 a1).itinerary.length = 1 ∧
    (defaultItinerary today d1 a1).startDate = today ∧
    (defaultItinerary today d1 a1).endDate = today + 2 ∧
    (defaultItinerary today d1 a1).itinerary.map DayPlan.day = [ 1 ] ∧
    (defaultItinerary today d1 a1).itinerary.map DayPlan.date = [ today ] ∧
    (defaultItinerary today d1 a1).itinerary.map DayPlan.activities
      = [ [ { id := a1, time := "09:00", description := "Arrive at Airport" } ] ] ∧
    (defaultItinerary today d1 a1).budget
      = { currency := "USD",
          entries := [ ("flights", { estimated := some 600, actual := some 0 }),
                       ("accommodation", { estimated := some 500, actual := some 0 }),
                       ("activities", { estimated := some 400, actual := some 0 }),
                       ("miscellaneous", { estimated := some 100, actual := some 0 }) ] } ∧
    (addDay (defaultItinerary today d1 a1) d2 a2).itinerary
      = (defaultItinerary today d1 a1).itinerary ++
        [ { id := d2, day := 2, date := today + 1,
            activities := [ { id := a2, time := "09:00",
                              description := "New Day Activity" } ] } ] := by
  refine ⟨rfl, rfl, rfl, rfl, rfl, rfl, rfl, ?_⟩
  simp [addDay, defaultItinerary]

/-- C3 counterexample: `setBudgetAmount` with the unknown category key
"hotel" is not a no-op on the default document. -/
theorem setBudgetAmount_unknown_key_counterexample :
    handleBudgetChange (defaultItinerary 0 "d1" "a1")
        { name := "hotel", value := "5", datasetField := some BField.estimated }
      ≠ defaultItinerary 0 "d1" "a1" := by
  intro hEq
  have h := congrArg (fun d => d.budget.entries.length) hEq
  simp [handleBudgetChange, defaultItinerary, updateEntry] at h

/-- C3 (amended): for a `categoryKey` that is none of the document's
existing budget keys (and not "currency"), `setBudgetAmount` is not a
no-op: it appends a fresh category entry under that key holding only the
addressed field, leaving every existing entry — the four fixed categories
in particular — unchanged. -/
theorem setBudgetAmount_unknown_key_appends (doc : TripDoc) (e : BudgetEvent) (f : BField)
    (hf : e.datasetField = some f) (hc : e.name ≠ "currency")
    (hk : ∀ p ∈ doc.budget.entries, p.1 ≠ e.name) :
    (handleBudgetChange doc e).budget.entries
      = doc.budget.entries ++ [ (e.name, setCatField emptyCat f (parseOrZero e.value)) ] := by
  unfold handleBudgetChange
  rw [if_neg hc, hf]
  simpa using updateEntry_of_fresh doc.budget.entries e.name f (parseOrZero e.value) hk

/-- Witness for C3 (amended) at the default document and key "hotel". -/
theorem setBudgetAmount_unknown_key_appends_witness :
    (handleBudgetChange (defaultItinerary 0 "d1" "a1")
        { name := "hotel", value := "5", datasetField := some BField.estimated }).budget.entries
      = (defaultItinerary 0 "d1" "a1").budget.entries
        ++ [ ("hotel", setCatField emptyCat BField.estimated (parseOrZero "5")) ] :=
  setBudgetAmount_unknown_key_appends _ _ _ rfl (by decide) (by decide)

/-- C4: for every document, fixed category key, field, and raw value that
does not parse as a number, `setBudgetAmount` writes exactly `0` (a number,
never `NaN`, no error) into `budget[categoryKey][field]`. -/
theorem setBudgetAmount_nonnumeric_writes_zero (doc : TripDoc) (e : BudgetEvent) (f : BField)
    (hk : e.name = "flights" ∨ e.name = "accommodation" ∨ e.name = "activities"
      ∨ e.name = "miscellaneous")
    (hf : e.datasetField = some f)
    (hp : jsParseFloat e.value = none) :
    getAmount (handleBudgetChange doc e).budget e.name f = some 0 := by
  have hc : e.name ≠ "currency" := by
    rcases hk with h | h | h | h <;> simp [h]
  have hz : parseOrZero e.value = 0 := by simp [parseOrZero, hp]
  unfold handleBudgetChange
  rw [if_neg hc, hf]
  simp only [getAmount, hz]
  rw [lookupEntry_updateEntry_self]
  cases f <;> simp [setCatField]

/-- Witness for C4: `setBudgetAmount(doc, "flights", "estimated", "abc")`
yields `flights.estimated == 0` on the default document. -/
theorem setBudgetAmount_nonnumeric_witness :
    getAmount (handleBudgetChange (defaultItinerary 0 "d1" "a1")
        { name := "flights", value := "abc", datasetField := some BField.estimated }).budget
      "flights" BField.estimated = some 0 :=
  setBudgetAmount_nonnumeric_writes_zero _ _ _ (Or.inl rfl) rfl (by decide)

/-- C5: `setField` with `startDate := D` recomputes every day's date as
`D + (day - 1)` days from that day's existing day number, and leaves every
day number and every activities list unchanged. -/
theorem startDate_change_recomputes_dates (doc : TripDoc) (d : Int) :
    (handleDetailChange doc (.startDate d)).itinerary.map DayPlan.date
        = doc.itinerary.map (fun p => d + (p.day - 1)) ∧
    (handleDetailChange doc (.startDate d)).itinerary.map DayPlan.day
        = doc.itinerary.map DayPlan.day ∧
    (handleDetailChange doc (.startDate d)).itinerary.map DayPlan.activities
        = doc.itinerary.map DayPlan.activities := by
  by_cases h : doc.itinerary.length > 0
  · simp [handleDetailChange, h, List.map_map, Function.comp]
  · have he : doc.itinerary = [] := by
      cases hi : doc.itinerary with
      | nil => rfl
      | cons a l => rw [hi] at h; simp at h
    simp [handleDetailChange, h, he]

/-- C6 counterexample: on the default document (whose amounts are all
non-negative), `setBudgetAmount(doc, "flights", "estimated", "-5")` stores
the negative number `-5`. -/
theorem setBudgetAmount_negative_counterexample :
    getAmount (handleBudgetChange (defaultItinerary 0 "d1" "a1")
        { name := "flights", value := "-5", datasetField := some BField.estimated }).budget
      "flights" BField.estimated = some (-5) ∧ ((-5 : ℚ) < 0) := by
  constructor
  · have h : parseSigned (dropJsWs "-5".data)
        = some (true, { intDs := ['5'], fracDs := [], expo := 0 }) := by decide
    have h2 : natOfDigits ['5'] = 5 := by decide
    have h5 : parseOrZero "-5" = -5 := by
      simp [parseOrZero, jsParseFloat, h, partsVal, h2, natOfDigits]
    simp [handleBudgetChange, defaultItinerary, updateEntry, getAmount, lookupEntry,
      h5, setCatField]
  · norm_num

/-- C6 (amended): `setBudgetAmount` preserves non-negativity of all budget
amounts whenever the raw value does not parse to a negative number; the
handler itself does not reject negative inputs (the `min="0"` attribute is
only a UI constraint). -/
theorem setBudgetAmount_preserves_nonneg (doc : TripDoc) (e : BudgetEvent)
    (hnn : NonnegSheet doc.budget) (hv : 0 ≤ parseOrZero e.value) :
    NonnegSheet (handleBudgetChange doc e).budget := by
  unfold handleBudgetChange
  split
  · intro p hp
    exact hnn p hp
  · split
    · intro p hp
      simp only at hp
      exact updateEntry_nonneg doc.budget.entries _ _ _ hnn hv p hp
    · exact hnn

/-- Witness for C6 (amended) at the default document and raw value "7". -/
theorem setBudgetAmount_preserves_nonneg_witness :
    NonnegSheet (handleBudgetChange (defaultItinerary 0 "d1" "a1")
        { name := "flights", value := "7", datasetField := some BField.estimated }).budget :=
  setBudgetAmount_preserves_nonneg _ _
    (by
      intro p hp
      simp [defaultItinerary] at hp
      rcases hp with h | h | h | h <;> subst h <;> constructor <;> intro q hq <;>
        simp at hq <;> subst hq <;> norm_num)
    (by
      have h : parseSigned (dropJsWs "7".data)
          = some (false, { intDs := ['7'], fracDs := [], expo := 0 }) := by decide
      have h2 : natOfDigits ['7'] = 7 := by decide
      simp [parseOrZero, jsParseFloat, h, partsVal, h2, natOfDigits])

/-- C7: for every document with the four fixed budget categories, the
displayed totals are the arithmetic sums of the four estimated and the four
actual amounts, and the "Over Budget" status is shown iff total actual
exceeds total estimated. -/
theorem budget_totals_and_status (b : BudgetSheet) (e1 a1 e2 a2 e3 a3 e4 a4 : ℚ)
    (h : b.entries = [ ("flights", { estimated := some e1, actual := some a1 }),
                       ("accommodation", { estimated := some e2, actual := some a2 }),
                       ("activities", { estimated := some e3, actual := some a3 }),
                       ("miscellaneous", { estimated := some e4, actual := some a4 }) ]) :
    totalEstimated b = e1 + e2 + e3 + e4 ∧
    totalActual b = a1 + a2 + a3 + a4 ∧
    (budgetStatus b = "Over Budget" ↔ totalActual b > totalEstimated b) := by
  refine ⟨?_, ?_, ?_⟩
  · simp [totalEstimated, h]
  · simp [totalActual, h]
  · by_cases hgt : totalActual b > totalEstimated b <;> simp [budgetStatus, hgt]

/-- Witness for C7 at the default budget. -/
theorem budget_totals_and_status_witness :
    totalEstimated (defaultItinerary 0 "d1" "a1").budget = 600 + 500 + 400 + 100 ∧
    totalActual (defaultItinerary 0 "d1" "a1").budget = 0 + 0 + 0 + 0 ∧
    (budgetStatus (defaultItinerary 0 "d1" "a1").budget = "Over Budget"
      ↔ totalActual (defaultItinerary 0 "d1" "a1").budget
          > totalEstimated (defaultItinerary 0 "d1" "a1").budget) :=
  budget_totals_and_status _ 600 0 500 0 400 0 100 0 rfl

/-- C8: deserializing the serialization of any document yields the document
back — the JSON round-trip used by `saveItinerary` and the snapshot
listener loses no information. -/
theorem tripDoc_serialization_roundTrip (t : TripDoc) :
    TripDoc.fromJson t.toJson = some t := by
  cases t
  simp [TripDoc.toJson, TripDoc.fromJson, getField, asStr, asArr, asNumInt_intCast,
    budgetSheet_roundTrip,
    decodeList_roundTrip DayPlan.toJson DayPlan.fromJson dayPlan_roundTrip]

/-- C9 counterexample: on a payload that fails to deserialize, the snapshot
callback does NOT call `saveItinerary(defaultItinerary)`; it only resets
local state to the default document. -/
theorem onSnapshot_corrupt_counterexample :
    (onSnapshotStep (defaultItinerary 0 "d1" "a1")
        (SnapshotRecord.payload StoredPayload.unparsable)).savedDefault = false ∧
    (onSnapshotStep (defaultItinerary 0 "d1" "a1")
        (SnapshotRecord.payload StoredPayload.unparsable)).newLocal
      = some (defaultItinerary 0 "d1" "a1") :=
  ⟨rfl, rfl⟩

/-- C9 (amended): the snapshot callback calls `save(identity,
defaultDocument)` exactly when the record is missing or its payload field is
empty; a corrupt payload (fails to deserialize) instead sets the local state
to the default document, without saving and without propagating a parse
error. -/
theorem onSnapshot_init_and_fallback (d : TripDoc) (snap : SnapshotRecord) :
    ((onSnapshotStep d snap).savedDefault = true
        ↔ snap = SnapshotRecord.missing ∨ snap = SnapshotRecord.emptyData) ∧
    (snap = SnapshotRecord.payload StoredPayload.unparsable →
      (onSnapshotStep d snap).savedDefault = false ∧
      (onSnapshotStep d snap).newLocal = some d) := by
  cases snap with
  | missing => simp [onSnapshotStep]
  | emptyData => simp [onSnapshotStep]
  | payload p => cases p <;> simp [onSnapshotStep]

/-- Witness for C9 (amended) at the corrupt-payload case. -/
theorem onSnapshot_init_and_fallback_witness :
    (onSnapshotStep (defaultItinerary 0 "d2" "a2")
        (SnapshotRecord.payload StoredPayload.unparsable)).savedDefault = false ∧
    (onSnapshotStep (defaultItinerary 0 "d2" "a2")
        (SnapshotRecord.payload StoredPayload.unparsable)).newLocal
      = some (defaultItinerary 0 "d2" "a2") :=
  (onSnapshot_init_and_fallback (defaultItinerary 0 "d2" "a2")
    (SnapshotRecord.payload StoredPayload.unparsable)).2 rfl

/-- C10: every itinerary mutation leaves the budget unchanged, and every
budget mutation (currency or amount) leaves the title, destination, notes,
start date, end date, and itinerary unchanged. -/
theorem mutations_frame_conditions (doc : TripDoc) (dayId activityId newId dId aId rId : String)
    (f : BActField) (v : String) (e : BudgetEvent) :
    (handleActivityChange doc dayId activityId f v).budget = doc.budget ∧
    (addActivity doc dayId newId).budget = doc.budget ∧
    (removeActivity doc dayId activityId).budget = doc.budget ∧
    (addDay doc dId aId).budget = doc.budget ∧
    (removeDay doc rId).budget = doc.budget ∧
    (handleBudgetChange doc e).title = doc.title ∧
    (handleBudgetChange doc e).destination = doc.destination ∧
    (handleBudgetChange doc e).notes = doc.notes ∧
    (handleBudgetChange doc e).startDate = doc.startDate ∧
    (handleBudgetChange doc e).endDate = doc.endDate ∧
    (handleBudgetChange doc e).itinerary = doc.itinerary := by
  refine ⟨rfl, rfl, rfl, rfl, rfl, ?_, ?_, ?_, ?_, ?_, ?_⟩
  all_goals
    unfold handleBudgetChange
    split
    · rfl
    · split <;> rfl

end ItineraryApp
